import Mathlib

/-!
# Verification of the stock-movement Excel report wizard

Shallow embedding of `wizard/stock_movement_report_wizard.py` from the
`nv_stock_movement_excel_report` Odoo module, together with proofs about the
claims of its specification.

Conventions of the embedding:
* Python `date` values become the `Date` structure (year/month/day, Gregorian
  calendar); `relativedelta(months=1)` applied to first-of-month dates is
  tracked through the month index `12 * year + (month - 1)`.
* The SQL tables the wizard queries become lists of records in a `DB`
  structure.  SQL inner joins against the order tables are flattened into the
  line records (each line record carries its order's state and date columns);
  the `uom_uom` table is a total map from uom id to its `factor` column,
  since every line's uom exists by foreign key.
* Quantities, prices and values are rationals (`Rat`): the arithmetic the
  queries perform is `+`, `*`, `/` on numeric columns.
* `SELECT COALESCE(SUM(...), 0) ... WHERE cond` becomes
  `((rows.filter cond).map term).sum`.
* Python dicts keyed by product id become association lists with
  insert-or-overwrite update, preserving insertion order, like `dict`.
* `raise UserError(msg)` becomes `Except.error msg`.
-/

namespace StockReport

/-- Gregorian leap-year test, as in Python's `datetime` calendar. -/
def isLeap (y : Nat) : Bool :=
  (y % 4 == 0 && y % 100 != 0) || y % 400 == 0

/-- Number of days of month `m` of year `y` (Gregorian calendar). -/
def daysInMonth (y m : Nat) : Nat :=
  if m == 2 then (if isLeap y then 29 else 28)
  else if m == 4 || m == 6 || m == 9 || m == 11 then 30
  else 31

/-- A calendar date, mirroring Python `datetime.date`. -/
structure Date where
  year : Nat
  month : Nat
  day : Nat
  deriving DecidableEq, Repr

/-- `d` denotes a real calendar date. -/
def Date.valid (d : Date) : Bool :=
  decide (1 ≤ d.month) && decide (d.month ≤ 12) &&
  decide (1 ≤ d.day) && decide (d.day ≤ daysInMonth d.year d.month)

/-- `a <= b` on dates (lexicographic year, month, day), mirroring Python
date comparison. -/
def Date.ble (a b : Date) : Bool :=
  decide (a.year < b.year ∨ (a.year = b.year ∧
    (a.month < b.month ∨ (a.month = b.month ∧ a.day ≤ b.day))))

/-- `a < b` on dates (lexicographic year, month, day). -/
def Date.blt (a b : Date) : Bool :=
  decide (a.year < b.year ∨ (a.year = b.year ∧
    (a.month < b.month ∨ (a.month = b.month ∧ a.day < b.day))))

/-- `date - timedelta(days=1)`: the previous calendar day. -/
def Date.subDay (d : Date) : Date :=
  if 1 < d.day then ⟨d.year, d.month, d.day - 1⟩
  else if 1 < d.month then ⟨d.year, d.month - 1, daysInMonth d.year (d.month - 1)⟩
  else ⟨d.year - 1, 12, daysInMonth (d.year - 1) 12⟩

/-- The month index `12 * year + (month - 1)` of a date; `current = current +
relativedelta(months=1)` on first-of-month dates increments this index. -/
def monthIndex (d : Date) : Nat := 12 * d.year + (d.month - 1)

/-- The first-of-month date of month index `i`. -/
def monthStart (i : Nat) : Date := ⟨i / 12, i % 12 + 1, 1⟩

/-- English month name, as produced by `strftime('%B')`. -/
def monthName : Nat → String
  | 1 => "January" | 2 => "February" | 3 => "March" | 4 => "April"
  | 5 => "May" | 6 => "June" | 7 => "July" | 8 => "August"
  | 9 => "September" | 10 => "October" | 11 => "November" | 12 => "December"
  | _ => ""

/-- One entry of the list built by `_get_months_in_range`; the Python dict key
`end` is a Lean keyword, so the field is called `last`. -/
structure MonthBucket where
  date : Date
  name : String
  year : Nat
  month : Nat
  start : Date
  last : Date
  deriving DecidableEq, Repr

/-- The month dict appended for the first-of-month date of month index `i`:
`start` is that date, `end` is `(current + relativedelta(months=1)) -
timedelta(days=1)`. -/
def mkBucket (i : Nat) : MonthBucket :=
  { date := monthStart i
    name := monthName (i % 12 + 1) ++ " " ++ toString (i / 12)
    year := i / 12
    month := i % 12 + 1
    start := monthStart i
    last := (monthStart (i + 1)).subDay }

/-- `_get_months_in_range`: the while loop starts at `date_from.replace(day=1)`,
appends a bucket and advances by one month while `current <= end` where `end =
date_to.replace(day=1)`; on first-of-month dates that comparison and that step
are exactly `<=` and `+1` on month indices, so the loop emits the buckets of
the consecutive month indices from `monthIndex date_from` to
`monthIndex date_to`. -/
def get_months_in_range (date_from date_to : Date) : List MonthBucket :=
  let current := monthIndex date_from
  let e := monthIndex date_to
  if current ≤ e then
    (List.range (e + 1 - current)).map (fun i => mkBucket (current + i))
  else []

/-! ## Data model: the tables the wizard reads -/

/-- A `product_product` variant joined with its `product_template`:
`categ_path` is the variant's category id together with all its ancestor
category ids (so the ORM operator `('categ_id', 'child_of', ids)` is
membership of some element of `categ_path` in `ids`); `type` is a Lean
keyword, hence `ptype`. -/
structure Product where
  id : Nat
  product_tmpl_id : Nat
  name : String
  ptype : String
  categ_path : List Nat
  uom_id : Nat
  deriving DecidableEq, Repr

/-- A `stock_location` row. -/
structure StockLocation where
  id : Nat
  usage : String
  warehouse_id : Option Nat
  deriving DecidableEq, Repr

/-- A `stock_move` row (the columns the wizard reads). -/
structure StockMove where
  id : Nat
  product_id : Nat
  state : String
  date : Date
  location_id : Nat
  location_dest_id : Nat
  product_qty : Rat
  price_unit : Rat
  purchase_line_id : Option Nat
  deriving DecidableEq, Repr

/-- A `purchase_order_line` row flattened with its joined `purchase_order`:
`order_state` is `po.state` and `date_approve` is `po.date_approve`. -/
structure PurchaseOrderLine where
  id : Nat
  product_id : Nat
  qty_received : Rat
  price_unit : Rat
  product_uom_id : Nat
  order_state : String
  date_approve : Date
  deriving DecidableEq, Repr

/-- A `sale_order_line` row flattened with its joined `sale_order`:
`order_state` is `so.state` and `date_order` is `so.date_order`. -/
structure SaleOrderLine where
  id : Nat
  product_id : Nat
  qty_delivered : Rat
  price_unit : Rat
  product_uom_id : Nat
  order_state : String
  date_order : Date
  deriving DecidableEq, Repr

/-- A `pos_order_line` row flattened with its joined `pos_order`:
`order_state` is `po.state` and `date_order` is `po.date_order`. -/
structure PosOrderLine where
  id : Nat
  product_id : Nat
  qty : Rat
  price_subtotal_incl : Rat
  order_state : String
  date_order : Date
  deriving DecidableEq, Repr

/-- An `mrp_bom` row; `type` is a Lean keyword, hence `btype` (value
`"phantom"` marks kit assemblies); `product_id` is the specific kit variant
when set, otherwise the BoM applies to the whole template. -/
structure MrpBom where
  id : Nat
  btype : String
  product_id : Option Nat
  product_tmpl_id : Nat
  deriving DecidableEq, Repr

/-- An `mrp_bom_line` row: `product_id` is the component consumed. -/
structure MrpBomLine where
  id : Nat
  bom_id : Nat
  product_id : Nat
  product_qty : Rat
  product_uom_id : Nat
  deriving DecidableEq, Repr

/-- The slice of the database the wizard queries.  `uom_factor` is the
`uom_uom.factor` column as a total map (every uom referenced by a line exists
by foreign key). -/
structure DB where
  products : List Product
  locations : List StockLocation
  moves : List StockMove
  purchase_lines : List PurchaseOrderLine
  sale_lines : List SaleOrderLine
  pos_lines : List PosOrderLine
  boms : List MrpBom
  bom_lines : List MrpBomLine
  uom_factor : Nat → Rat

/-- The wizard record's fields (many2many fields as id lists). -/
structure Wizard where
  date_from : Date
  date_to : Date
  product_ids : List Nat
  category_ids : List Nat
  warehouse_ids : List Nat
  include_pos : Bool
  include_sales : Bool
  include_purchases : Bool
  deriving DecidableEq, Repr

/-- The base uom id of product `pid`: `pt.uom_id` reached through the
`product_product` / `product_template` join. -/
def product_uom_id_of (db : DB) (pid : Nat) : Nat :=
  match db.products.find? (fun p => p.id == pid) with
  | some p => p.uom_id
  | none => 0

/-! ## Embedded wizard operations -/

/-- `_check_dates`: raises when `date_from > date_to`. -/
def check_dates (w : Wizard) : Except String Unit :=
  if w.date_to.blt w.date_from then
    Except.error "Start Date must be before End Date."
  else Except.ok ()

/-- The search domain of `_get_products`: stockable type, optional id filter,
optional category-subtree filter. -/
def searchDomain (w : Wizard) (p : Product) : Bool :=
  p.ptype == "consu" &&
  (w.product_ids.isEmpty || w.product_ids.contains p.id) &&
  (w.category_ids.isEmpty || p.categ_path.any (fun c => w.category_ids.contains c))

/-- `order='name'` of the product search. -/
def nameLe (a b : Product) : Bool := decide (a.name ≤ b.name)

/-- `_get_products`: search stockable variants matching the filters ordered by
name, then (when the result and the phantom-BoM template set are non-empty)
drop every variant whose template has a phantom BoM. -/
def get_products (db : DB) (w : Wizard) : List Product :=
  let products := (db.products.filter (searchDomain w)).mergeSort nameLe
  if products.isEmpty then products
  else
    let phantom_bom_product_tmpl_ids :=
      (db.boms.filter (fun b => b.btype == "phantom" &&
        products.any (fun p => p.product_tmpl_id == b.product_tmpl_id))).map
        (fun b => b.product_tmpl_id)
    if phantom_bom_product_tmpl_ids.isEmpty then products
    else products.filter (fun p => !phantom_bom_product_tmpl_ids.contains p.product_tmpl_id)

/-- `_get_location_ids`: ids of internal locations, restricted to the chosen
warehouses when any are set (`warehouse_id in %s` is false on NULL). -/
def get_location_ids (db : DB) (w : Wizard) : List Nat :=
  if !w.warehouse_ids.isEmpty then
    (db.locations.filter (fun l => l.usage == "internal" &&
      (match l.warehouse_id with
       | some wh => w.warehouse_ids.contains wh
       | none => false))).map (fun l => l.id)
  else
    (db.locations.filter (fun l => l.usage == "internal")).map (fun l => l.id)

/-- `_get_stock_at_date`: the SQL sums, over done moves dated on or before
`date` with at least one endpoint in `location_ids`, a CASE expression that
tests the destination first: `+product_qty` when the destination is in the
set, else `-product_qty` when the source is in the set, else `0`. -/
def get_stock_at_date (db : DB) (product_id : Nat) (date : Date)
    (location_ids : List Nat) : Rat :=
  ((db.moves.filter (fun sm =>
      sm.product_id == product_id && sm.state == "done" && sm.date.ble date &&
      (location_ids.contains sm.location_id ||
       location_ids.contains sm.location_dest_id))).map
    (fun sm =>
      if location_ids.contains sm.location_dest_id then sm.product_qty
      else if location_ids.contains sm.location_id then -sm.product_qty
      else 0)).sum

/-- The window test `date >= date_start AND date <= date_end` shared by every
aggregation query of `_get_stock_moves_data`. -/
def inWindow (date_start date_end d : Date) : Bool :=
  date_start.ble d && d.ble date_end

/-- The per-move price of the incoming-value sum: the linked purchase order
line's `price_unit` when `sm.purchase_line_id` resolves, else the move's own
`price_unit` (the COALESCE over the correlated subquery). -/
def movePrice (db : DB) (sm : StockMove) : Rat :=
  match sm.purchase_line_id with
  | some plid =>
    match db.purchase_lines.find? (fun pol => pol.id == plid) with
    | some pol => pol.price_unit
    | none => sm.price_unit
  | none => sm.price_unit

/-- The incoming-moves query: done moves in the window whose destination is in
the set and whose source is not; returns `(qty sum, value sum)`. -/
def qtyInAgg (db : DB) (product_id : Nat) (date_start date_end : Date)
    (location_ids : List Nat) : Rat × Rat :=
  let rows := db.moves.filter (fun sm =>
    sm.product_id == product_id && sm.state == "done" &&
    inWindow date_start date_end sm.date &&
    location_ids.contains sm.location_dest_id &&
    !location_ids.contains sm.location_id)
  ((rows.map (fun sm => sm.product_qty)).sum,
   (rows.map (fun sm => sm.product_qty * movePrice db sm)).sum)

/-- The outgoing-moves query: done moves in the window whose source is in the
set and whose destination is not; value uses the move's own `price_unit`. -/
def qtyOutAgg (db : DB) (product_id : Nat) (date_start date_end : Date)
    (location_ids : List Nat) : Rat × Rat :=
  let rows := db.moves.filter (fun sm =>
    sm.product_id == product_id && sm.state == "done" &&
    inWindow date_start date_end sm.date &&
    location_ids.contains sm.location_id &&
    !location_ids.contains sm.location_dest_id)
  ((rows.map (fun sm => sm.product_qty)).sum,
   (rows.map (fun sm => sm.product_qty * sm.price_unit)).sum)

/-- The purchase query: confirmed purchase lines approved in the window;
qty converted `qty_received / pol_uom.factor * prod_uom.factor`, value
`qty_received * price_unit` unconverted. -/
def purchaseAgg (db : DB) (product_id : Nat) (date_start date_end : Date) :
    Rat × Rat :=
  let rows := db.purchase_lines.filter (fun pol =>
    pol.product_id == product_id &&
    (pol.order_state == "purchase" || pol.order_state == "done") &&
    inWindow date_start date_end pol.date_approve)
  ((rows.map (fun pol =>
      pol.qty_received / db.uom_factor pol.product_uom_id *
        db.uom_factor (product_uom_id_of db product_id))).sum,
   (rows.map (fun pol => pol.qty_received * pol.price_unit)).sum)

/-- The sale query (used both for the product itself and for each kit):
confirmed sale lines ordered in the window; qty converted
`qty_delivered / sol_uom.factor * prod_uom.factor` into the queried product's
base uom, value `qty_delivered * price_unit` unconverted. -/
def saleAgg (db : DB) (product_id : Nat) (date_start date_end : Date) :
    Rat × Rat :=
  let rows := db.sale_lines.filter (fun sol =>
    sol.product_id == product_id &&
    (sol.order_state == "sale" || sol.order_state == "done") &&
    inWindow date_start date_end sol.date_order)
  ((rows.map (fun sol =>
      sol.qty_delivered / db.uom_factor sol.product_uom_id *
        db.uom_factor (product_uom_id_of db product_id))).sum,
   (rows.map (fun sol => sol.qty_delivered * sol.price_unit)).sum)

/-- The POS query: settled POS lines ordered in the window; qty is already in
the product's base uom, value is the tax-inclusive subtotal. -/
def posAgg (db : DB) (product_id : Nat) (date_start date_end : Date) :
    Rat × Rat :=
  let rows := db.pos_lines.filter (fun pol =>
    pol.product_id == product_id &&
    (pol.order_state == "paid" || pol.order_state == "done" ||
     pol.order_state == "invoiced") &&
    inWindow date_start date_end pol.date_order)
  ((rows.map (fun pol => pol.qty)).sum,
   (rows.map (fun pol => pol.price_subtotal_incl)).sum)

/-- The uom handling of one BoM line in `_get_phantom_bom_components`:
`line.product_qty`, converted through `_compute_quantity` (linear factor
conversion `qty / from.factor * to.factor`) into the component product's base
uom when `line.product_uom_id != line.product_id.uom_id`. -/
def lineComponentQty (db : DB) (line : MrpBomLine) : Rat :=
  let comp_uom := product_uom_id_of db line.product_id
  if line.product_uom_id == comp_uom then line.product_qty
  else line.product_qty / db.uom_factor line.product_uom_id * db.uom_factor comp_uom

/-- Python `result[kit_product_id] = component_qty` on a dict rendered as an
insertion-ordered association list: overwrite in place when the key exists,
else append. -/
def dictInsert (m : List (Nat × Rat)) (k : Nat) (v : Rat) : List (Nat × Rat) :=
  if m.any (fun p => p.1 == k) then
    m.map (fun p => if p.1 == k then (k, v) else p)
  else m ++ [(k, v)]

/-- `result.get(key)` on the association-list rendering of the Python dict:
the value of the first pair whose key matches. -/
def alookup : List (Nat × Rat) → Nat → Option Rat
  | [], _ => none
  | p :: m, k => if p.1 = k then some p.2 else alookup m k

/-- `bom.product_tmpl_id.product_variant_ids`: the ids of the variants of a
template. -/
def variantsOf (db : DB) (tmpl : Nat) : List Nat :=
  (db.products.filter (fun p => p.product_tmpl_id == tmpl)).map (fun p => p.id)

/-- One iteration of the `for line in bom_lines` loop of
`_get_phantom_bom_components`: skip non-phantom BoMs; for a variant-level BoM
store the converted quantity under the variant id; for a template-level BoM
store the same converted quantity under every variant id of the template. -/
def phantomStep (db : DB) (acc : List (Nat × Rat)) (line : MrpBomLine) :
    List (Nat × Rat) :=
  match db.boms.find? (fun b => b.id == line.bom_id) with
  | none => acc
  | some bom =>
    if bom.btype == "phantom" then
      match bom.product_id with
      | some kit_product_id => dictInsert acc kit_product_id (lineComponentQty db line)
      | none =>
        (variantsOf db bom.product_tmpl_id).foldl
          (fun a kit_product_id => dictInsert a kit_product_id (lineComponentQty db line)) acc
    else acc

/-- `_get_phantom_bom_components`: fold `phantomStep` over the BoM lines whose
component is `product_id`, starting from the empty dict. -/
def get_phantom_bom_components (db : DB) (product_id : Nat) :
    List (Nat × Rat) :=
  (db.bom_lines.filter (fun l => l.product_id == product_id)).foldl
    (phantomStep db) []

/-- The `data` dict returned by `_get_stock_moves_data`. -/
structure StockMovesData where
  qty_in : Rat
  qty_out : Rat
  value_in : Rat
  value_out : Rat
  purchase_qty : Rat
  purchase_value : Rat
  sale_qty : Rat
  sale_value : Rat
  pos_qty : Rat
  pos_value : Rat
  deriving DecidableEq, Repr

/-- The kit-attribution loop body shared by the sales and POS branches:
`if result and result[0]:` adds `qty * bom_qty` and `value * bom_qty`, i.e. a
kit whose window quantity total is zero contributes nothing at all. -/
def kitFold (agg : Nat → Rat × Rat) (phantom_bom_data : List (Nat × Rat))
    (init : Rat × Rat) : Rat × Rat :=
  phantom_bom_data.foldl
    (fun acc kv =>
      let r := agg kv.1
      if r.1 = 0 then acc else (acc.1 + r.1 * kv.2, acc.2 + r.2 * kv.2))
    init

/-- `_get_stock_moves_data`: generic in/out sums always; purchase, sale and
POS sums only when their channel toggle is on; sale and POS additionally fold
the kit-attributed contributions over `_get_phantom_bom_components`. -/
def get_stock_moves_data (db : DB) (w : Wizard) (product_id : Nat)
    (date_start date_end : Date) (location_ids : List Nat) : StockMovesData :=
  let phantom_bom_data := get_phantom_bom_components db product_id
  let rin := qtyInAgg db product_id date_start date_end location_ids
  let rout := qtyOutAgg db product_id date_start date_end location_ids
  let rpur := if w.include_purchases then
      purchaseAgg db product_id date_start date_end else (0, 0)
  let rsale := if w.include_sales then
      kitFold (fun kit => saleAgg db kit date_start date_end) phantom_bom_data
        (saleAgg db product_id date_start date_end)
    else (0, 0)
  let rpos := if w.include_pos then
      kitFold (fun kit => posAgg db kit date_start date_end) phantom_bom_data
        (posAgg db product_id date_start date_end)
    else (0, 0)
  { qty_in := rin.1, qty_out := rout.1, value_in := rin.2, value_out := rout.2
    purchase_qty := rpur.1, purchase_value := rpur.2
    sale_qty := rsale.1, sale_value := rsale.2
    pos_qty := rpos.1, pos_value := rpos.2 }

/-! ## Report assembly (`_write_excel_content`, numeric content only) -/

/-- The `yearly_totals[year]` dict of `_write_excel_content`. -/
structure YearTotals where
  total_purchase_qty : Rat
  total_purchase_value : Rat
  total_sale_qty : Rat
  total_sale_value : Rat
  total_pos_qty : Rat
  total_pos_value : Rat
  deriving DecidableEq, Repr

def YearTotals.zero : YearTotals := ⟨0, 0, 0, 0, 0, 0⟩

/-- The per-month accumulation step on one year's totals. -/
def YearTotals.addMove (t : YearTotals) (d : StockMovesData) : YearTotals :=
  { total_purchase_qty := t.total_purchase_qty + d.purchase_qty
    total_purchase_value := t.total_purchase_value + d.purchase_value
    total_sale_qty := t.total_sale_qty + d.sale_qty
    total_sale_value := t.total_sale_value + d.sale_value
    total_pos_qty := t.total_pos_qty + d.pos_qty
    total_pos_value := t.total_pos_value + d.pos_value }

/-- The yearly-totals accumulation of `_write_excel_content` for one product:
fold over the months, adding each month's move data into the entry of the
month's year (the dict of zero-initialized `YearTotals` is rendered as a total
map from year to totals). -/
def accumulate_yearly_totals (months : List MonthBucket)
    (move_data : MonthBucket → StockMovesData) : Nat → YearTotals :=
  months.foldl
    (fun tot m => fun y =>
      if y = m.year then (tot y).addMove (move_data m) else tot y)
    (fun _ => YearTotals.zero)

/-- `sorted(set(m['year'] for m in months))`. -/
def years_in_range (months : List MonthBucket) : List Nat :=
  ((months.map (fun m => m.year)).dedup).mergeSort Nat.ble

/-- The 8 numeric cells of one product-month: opening stock at `start - 1
day`, the six flow metrics of `_get_stock_moves_data` over the full bucket
window `[start, end]`, closing stock at `end`. -/
def month_cells (db : DB) (w : Wizard) (product_id : Nat) (m : MonthBucket)
    (location_ids : List Nat) : List Rat :=
  let opening_qty := get_stock_at_date db product_id m.start.subDay location_ids
  let move_data := get_stock_moves_data db w product_id m.start m.last location_ids
  let closing_qty := get_stock_at_date db product_id m.last location_ids
  [opening_qty, move_data.purchase_qty, move_data.purchase_value,
   move_data.sale_qty, move_data.sale_value, move_data.pos_qty,
   move_data.pos_value, closing_qty]

/-- The 6 yearly-total cells of one product-year. -/
def year_cells (db : DB) (w : Wizard) (product_id : Nat)
    (months : List MonthBucket) (location_ids : List Nat) (y : Nat) :
    List Rat :=
  let t := accumulate_yearly_totals months
    (fun m => get_stock_moves_data db w product_id m.start m.last location_ids) y
  [t.total_purchase_qty, t.total_purchase_value, t.total_sale_qty,
   t.total_sale_value, t.total_pos_qty, t.total_pos_value]

/-- The numeric content of `_write_excel_content`: one row per product, the
month cells of every bucket followed by the yearly-total cells of every year
in range (labels, formats and cell coordinates are presentation only and not
modelled). -/
def write_excel_content (db : DB) (w : Wizard) (products : List Product)
    (months : List MonthBucket) (location_ids : List Nat) :
    List (List Rat) :=
  products.map (fun p =>
    (months.flatMap (fun m => month_cells db w p.id m location_ids)) ++
    ((years_in_range months).flatMap
      (fun y => year_cells db w p.id months location_ids y)))

/-- `action_generate_report`: the four validation gates in source order
(missing xlsxwriter, no products, no months, no locations), then the report
content; `Except.ok` carries the produced file's numeric content,
`Except.error` is `raise UserError` (no file produced). -/
def action_generate_report (xlsxwriter_available : Bool) (db : DB)
    (w : Wizard) : Except String (List (List Rat)) :=
  if !xlsxwriter_available then
    Except.error "xlsxwriter library is required. Please install it using: pip install xlsxwriter"
  else
    let products := get_products db w
    if products.isEmpty then
      Except.error "No products found with the given criteria."
    else
      let months := get_months_in_range w.date_from w.date_to
      if months.isEmpty then
        Except.error "No months found in the selected date range."
      else
        let location_ids := get_location_ids db w
        if location_ids.isEmpty then
          Except.error "No stock locations found."
        else
          Except.ok (write_excel_content db w products months location_ids)

/-- The full validation flow: the `@api.constrains` date check guards every
wizard record before `action_generate_report` can run on it. -/
def generate_report (xlsxwriter_available : Bool) (db : DB) (w : Wizard) :
    Except String (List (List Rat)) := do
  check_dates w
  action_generate_report xlsxwriter_available db w

/-! ## Definitions following the spec's words (for comparison with the code) -/

/-- The position of a bucket's month on the time line, `12 * year +
(month - 1)`; consecutive buckets of a gapless ascending sequence have
consecutive indices. -/
def bucketIndex (b : MonthBucket) : Nat := 12 * b.year + (b.month - 1)

/-- Follows the words of claim C1 (not the code): over done movements dated on
or before `date`, a movement into the internal set contributes `+quantity`, a
movement out of the internal set contributes `-quantity`, and a movement
entirely internal-to-internal or entirely external-to-external contributes
`0`. -/
def stock_at_date_claim (db : DB) (product_id : Nat) (date : Date)
    (location_ids : List Nat) : Rat :=
  ((db.moves.filter (fun sm =>
      sm.product_id == product_id && sm.state == "done" && sm.date.ble date)).map
    (fun sm =>
      if location_ids.contains sm.location_dest_id &&
         !location_ids.contains sm.location_id then sm.product_qty
      else if location_ids.contains sm.location_id &&
              !location_ids.contains sm.location_dest_id then -sm.product_qty
      else 0)).sum

/-- Follows the words of claim C3 (not the code): `(sale_qty, sale_value)` as
the product's direct confirmed sale totals in the window plus, for every kit
containing it, the kit's own totals in the window multiplied by the per-kit
multiplier — with no zero-quantity guard. -/
def sale_totals_claim (db : DB) (product_id : Nat) (date_start date_end : Date) :
    Rat × Rat :=
  let direct := saleAgg db product_id date_start date_end
  let kits := get_phantom_bom_components db product_id
  (direct.1 + (kits.map (fun kv => (saleAgg db kv.1 date_start date_end).1 * kv.2)).sum,
   direct.2 + (kits.map (fun kv => (saleAgg db kv.1 date_start date_end).2 * kv.2)).sum)

/-! ## Concrete fixtures used by witnesses and counterexamples -/

/-- A database with every table empty. -/
def emptyDB : DB :=
  { products := [], locations := [], moves := [], purchase_lines := []
    sale_lines := [], pos_lines := [], boms := [], bom_lines := []
    uom_factor := fun _ => 1 }

/-- A wizard with all channels on and no filters. -/
def mkWizard (date_from date_to : Date) : Wizard :=
  { date_from := date_from, date_to := date_to, product_ids := []
    category_ids := [], warehouse_ids := [], include_pos := true
    include_sales := true, include_purchases := true }

/-- C1 failing input: product 7, internal locations `{1, 2}`; one done receipt
from external location 9 into location 1 of qty 5, then one done purely
internal transfer from location 1 to location 2 of qty 5. -/
def dbStockBug : DB :=
  { emptyDB with moves :=
    [ { id := 1, product_id := 7, state := "done", date := ⟨2024, 1, 10⟩
        location_id := 9, location_dest_id := 1, product_qty := 5
        price_unit := 0, purchase_line_id := none }
    , { id := 2, product_id := 7, state := "done", date := ⟨2024, 1, 11⟩
        location_id := 1, location_dest_id := 2, product_qty := 5
        price_unit := 0, purchase_line_id := none } ] }

/-- C2 fixture: a template-level phantom BoM (template 100 with the two kit
variants 3 and 4) consuming 2 units of component 10 per kit. -/
def lineKitC2 : MrpBomLine :=
  { id := 1, bom_id := 1, product_id := 10, product_qty := 2, product_uom_id := 1 }

def dbKitTemplate : DB :=
  { emptyDB with
    products :=
      [ { id := 3, product_tmpl_id := 100, name := "Kit A", ptype := "consu"
          categ_path := [], uom_id := 1 }
      , { id := 4, product_tmpl_id := 100, name := "Kit B", ptype := "consu"
          categ_path := [], uom_id := 1 }
      , { id := 10, product_tmpl_id := 200, name := "Comp", ptype := "consu"
          categ_path := [], uom_id := 1 } ]
    boms := [ { id := 1, btype := "phantom", product_id := none, product_tmpl_id := 100 } ]
    bom_lines := [lineKitC2] }

/-- C10 fixture: component 10 appears in a template-level phantom BoM of
template 100 (whose only variant is kit 1, qty 2) and then in a variant-level
phantom BoM for the same kit 1 (qty 5). -/
def lineKitOld : MrpBomLine :=
  { id := 1, bom_id := 1, product_id := 10, product_qty := 2, product_uom_id := 1 }

def lineKitNew : MrpBomLine :=
  { id := 2, bom_id := 2, product_id := 10, product_qty := 5, product_uom_id := 1 }

def dbKitTwice : DB :=
  { emptyDB with
    products :=
      [ { id := 1, product_tmpl_id := 100, name := "Kit", ptype := "consu"
          categ_path := [], uom_id := 1 }
      , { id := 10, product_tmpl_id := 200, name := "Comp", ptype := "consu"
          categ_path := [], uom_id := 1 } ]
    boms :=
      [ { id := 1, btype := "phantom", product_id := none, product_tmpl_id := 100 }
      , { id := 2, btype := "phantom", product_id := some 1, product_tmpl_id := 100 } ]
    bom_lines := [lineKitOld, lineKitNew] }

/-- C3 counterexample fixture: kit 2 contains 2 units of component 1; in the
window the kit has two confirmed sale lines, qty `+1` at price 10 and qty `-1`
at price 20, so its delivered-qty total is 0 while its value total is `-10`. -/
def dbKitZeroQty : DB :=
  { emptyDB with
    products :=
      [ { id := 1, product_tmpl_id := 201, name := "Comp", ptype := "consu"
          categ_path := [], uom_id := 1 }
      , { id := 2, product_tmpl_id := 101, name := "Kit", ptype := "consu"
          categ_path := [], uom_id := 1 } ]
    boms := [ { id := 1, btype := "phantom", product_id := some 2, product_tmpl_id := 101 } ]
    bom_lines :=
      [ { id := 1, bom_id := 1, product_id := 1, product_qty := 2, product_uom_id := 1 } ]
    sale_lines :=
      [ { id := 1, product_id := 2, qty_delivered := 1, price_unit := 10
          product_uom_id := 1, order_state := "sale", date_order := ⟨2024, 1, 10⟩ }
      , { id := 2, product_id := 2, qty_delivered := -1, price_unit := 20
          product_uom_id := 1, order_state := "sale", date_order := ⟨2024, 1, 12⟩ } ] }

/-- C3 witness fixture: kit 2 contains 2 units of component 1 per kit, and one
confirmed sale line sells 3 units of the kit in the window. -/
def dbKitSale : DB :=
  { emptyDB with
    products :=
      [ { id := 1, product_tmpl_id := 201, name := "Comp", ptype := "consu"
          categ_path := [], uom_id := 1 }
      , { id := 2, product_tmpl_id := 101, name := "Kit", ptype := "consu"
          categ_path := [], uom_id := 1 } ]
    boms := [ { id := 1, btype := "phantom", product_id := some 2, product_tmpl_id := 101 } ]
    bom_lines :=
      [ { id := 1, bom_id := 1, product_id := 1, product_qty := 2, product_uom_id := 1 } ]
    sale_lines :=
      [ { id := 1, product_id := 2, qty_delivered := 3, price_unit := 100
          product_uom_id := 1, order_state := "sale", date_order := ⟨2024, 1, 10⟩ } ] }

/-- C7/C8 witness fixture: one stockable product, one internal location, no
BoMs. -/
def pOne : Product :=
  { id := 1, product_tmpl_id := 1, name := "P", ptype := "consu"
    categ_path := [7], uom_id := 1 }

def dbOneProduct : DB :=
  { emptyDB with
    products := [pOne]
    locations := [ { id := 11, usage := "internal", warehouse_id := some 1 } ] }

/-- A wizard over January 2024 with all channels on and no filters. -/
def wJan : Wizard := mkWizard ⟨2024, 1, 1⟩ ⟨2024, 1, 31⟩

/-! ## Supporting lemmas: dates and month buckets -/

theorem Date.ble_iff (a b : Date) :
    a.ble b = true ↔
      (a.year < b.year ∨ (a.year = b.year ∧
        (a.month < b.month ∨ (a.month = b.month ∧ a.day ≤ b.day)))) := by
  simp [Date.ble]

theorem Date.blt_iff (a b : Date) :
    a.blt b = true ↔
      (a.year < b.year ∨ (a.year = b.year ∧
        (a.month < b.month ∨ (a.month = b.month ∧ a.day < b.day)))) := by
  simp [Date.blt]

theorem Date.valid_iff (d : Date) :
    d.valid = true ↔
      (1 ≤ d.month ∧ d.month ≤ 12 ∧ 1 ≤ d.day ∧ d.day ≤ daysInMonth d.year d.month) := by
  simp [Date.valid, and_assoc]

theorem Date.ble_trans {a b c : Date} (h1 : a.ble b = true) (h2 : b.ble c = true) :
    a.ble c = true := by
  rw [Date.ble_iff] at h1 h2 ⊢; omega

theorem Date.blt_ble {a b : Date} (h : a.blt b = true) : a.ble b = true := by
  rw [Date.blt_iff] at h; rw [Date.ble_iff]; omega

theorem Date.blt_ble_trans {a b c : Date} (h1 : a.blt b = true) (h2 : b.ble c = true) :
    a.ble c = true := by
  rw [Date.blt_iff] at h1; rw [Date.ble_iff] at h2 ⊢; omega

theorem monthIndex_le_monthIndex {a b : Date} (ha : a.valid = true)
    (hb : b.valid = true) (h : a.ble b = true) : monthIndex a ≤ monthIndex b := by
  rw [Date.valid_iff] at ha hb
  rw [Date.ble_iff] at h
  unfold monthIndex
  omega

theorem monthStart_monthIndex {d : Date} (hd : d.valid = true) :
    monthStart (monthIndex d) = ⟨d.year, d.month, 1⟩ := by
  rw [Date.valid_iff] at hd
  unfold monthStart monthIndex
  rw [Date.mk.injEq]
  refine ⟨by omega, by omega, rfl⟩

theorem mkBucket_last (i : Nat) :
    (mkBucket i).last = ⟨i / 12, i % 12 + 1, daysInMonth (i / 12) (i % 12 + 1)⟩ := by
  show (monthStart (i + 1)).subDay = _
  unfold monthStart Date.subDay
  by_cases h : i % 12 = 11
  · have h1 : (i + 1) % 12 + 1 = 1 := by omega
    have h2 : (i + 1) / 12 - 1 = i / 12 := by omega
    simp only [h1]
    norm_num
    refine ⟨h2, by omega, ?_⟩
    rw [h2, show i % 12 + 1 = 12 by omega]
  · have h1 : (i + 1) % 12 = i % 12 + 1 := by omega
    have h2 : (i + 1) / 12 = i / 12 := by omega
    have h3 : 1 < (i + 1) % 12 + 1 := by omega
    simp only [show ¬(1 < 1) by omega, if_false, h3, if_true]
    rw [Date.mk.injEq, h1, h2]
    exact ⟨rfl, by omega, rfl⟩

theorem bucketIndex_mkBucket (j : Nat) : bucketIndex (mkBucket j) = j := by
  show 12 * (j / 12) + (j % 12 + 1 - 1) = j
  omega

theorem months_eq {date_from date_to : Date}
    (h : monthIndex date_from ≤ monthIndex date_to) :
    get_months_in_range date_from date_to =
      (List.range (monthIndex date_to + 1 - monthIndex date_from)).map
        (fun i => mkBucket (monthIndex date_from + i)) := by
  simp [get_months_in_range, h]

theorem months_length {date_from date_to : Date}
    (h : monthIndex date_from ≤ monthIndex date_to) :
    (get_months_in_range date_from date_to).length =
      monthIndex date_to + 1 - monthIndex date_from := by
  rw [months_eq h]; simp

theorem months_empty {date_from date_to : Date}
    (h : ¬ monthIndex date_from ≤ monthIndex date_to) :
    get_months_in_range date_from date_to = [] := by
  simp [get_months_in_range, h]

theorem months_headD {date_from date_to : Date}
    (h : monthIndex date_from ≤ monthIndex date_to) :
    (get_months_in_range date_from date_to).headD (mkBucket 0) =
      mkBucket (monthIndex date_from) := by
  rw [months_eq h]
  obtain ⟨k, hk⟩ : ∃ k, monthIndex date_to + 1 - monthIndex date_from = k + 1 :=
    ⟨monthIndex date_to - monthIndex date_from, by omega⟩
  rw [hk, List.range_succ_eq_map]
  simp

theorem months_getLastD {date_from date_to : Date}
    (h : monthIndex date_from ≤ monthIndex date_to) :
    (get_months_in_range date_from date_to).getLastD (mkBucket 0) =
      mkBucket (monthIndex date_to) := by
  rw [months_eq h, List.getLastD_eq_getLast?, List.getLast?_eq_getElem?]
  obtain ⟨k, hk⟩ : ∃ k, monthIndex date_to + 1 - monthIndex date_from = k + 1 :=
    ⟨monthIndex date_to - monthIndex date_from, by omega⟩
  rw [List.length_map, List.length_range, hk]
  rw [List.getElem?_map, List.getElem?_range (by omega : k + 1 - 1 < k + 1)]
  simp only [Option.map_some', Option.getD_some]
  congr 1
  omega

/-! ## Supporting lemmas: the phantom-BoM dict -/

theorem alookup_map_replace {m : List (Nat × Rat)} {k0 k : Nat} {v : Rat}
    (hk : ¬ k = k0) :
    alookup (m.map (fun p => if p.1 == k0 then (k0, v) else p)) k =
      alookup m k := by
  induction m with
  | nil => rfl
  | cons p m ih =>
    simp only [beq_iff_eq] at ih ⊢
    by_cases hp : p.1 = k0
    · have hne : ¬ k0 = k := fun h => hk h.symm
      simp [alookup, hp, hne, ih]
    · simp [alookup, hp, ih]

theorem alookup_map_replace_self {m : List (Nat × Rat)} {k0 : Nat} {v : Rat}
    (hany : m.any (fun q => q.1 == k0) = true) :
    alookup (m.map (fun p => if p.1 == k0 then (k0, v) else p)) k0 = some v := by
  induction m with
  | nil => simp at hany
  | cons p m ih =>
    simp only [beq_iff_eq] at ih
    by_cases hp : p.1 = k0
    · simp [alookup, hp]
    · have hrest : m.any (fun q => q.1 == k0) = true := by
        simp only [List.any_cons, Bool.or_eq_true, beq_iff_eq] at hany
        rcases hany with h | h
        · exact absurd h hp
        · exact h
      simp only [beq_iff_eq] at hrest
      simp [alookup, hp, ih hrest]

theorem alookup_eq_none {m : List (Nat × Rat)} {k0 : Nat}
    (h : m.any (fun q => q.1 == k0) = false) : alookup m k0 = none := by
  induction m with
  | nil => rfl
  | cons p m ih =>
    simp only [List.any_cons, Bool.or_eq_false_iff, beq_eq_false_iff_ne, ne_eq] at h
    simp [alookup, h.1, ih (by simpa using h.2)]

theorem alookup_append_single (m : List (Nat × Rat)) (k0 k : Nat) (v : Rat) :
    alookup (m ++ [(k0, v)]) k =
      match alookup m k with
      | some x => some x
      | none => if k0 = k then some v else none := by
  induction m with
  | nil => simp [alookup]
  | cons p m ih =>
    by_cases hp : p.1 = k
    · simp [alookup, hp]
    · simp [alookup, hp, ih]

theorem alookup_dictInsert (m : List (Nat × Rat)) (k0 k : Nat) (v : Rat) :
    alookup (dictInsert m k0 v) k =
      if k = k0 then some v else alookup m k := by
  unfold dictInsert
  by_cases hany : m.any (fun q => q.1 == k0) = true
  · rw [if_pos hany]
    by_cases h : k = k0
    · subst h
      rw [if_pos rfl, alookup_map_replace_self hany]
    · rw [if_neg h, alookup_map_replace h]
  · have hany' : m.any (fun q => q.1 == k0) = false := by
      cases hx : m.any (fun q => q.1 == k0)
      · rfl
      · exact absurd hx hany
    rw [if_neg (by simp [hany']), alookup_append_single]
    by_cases h : k = k0
    · subst h
      rw [alookup_eq_none hany']
    · have : ¬ k0 = k := fun hx => h hx.symm
      rw [if_neg h, if_neg this]
      cases alookup m k <;> rfl

theorem alookup_foldl_dictInsert_const (ks : List Nat) (acc : List (Nat × Rat))
    (v : Rat) (k : Nat) :
    alookup (ks.foldl (fun a kk => dictInsert a kk v) acc) k =
      if k ∈ ks then some v else alookup acc k := by
  induction ks generalizing acc with
  | nil => simp [alookup]
  | cons k0 ks ih =>
    rw [List.foldl_cons, ih]
    by_cases hk : k ∈ ks
    · simp [hk]
    · rw [if_neg hk, alookup_dictInsert]
      by_cases h0 : k = k0
      · simp [h0]
      · simp [h0, hk]

/-! ## Claims about the Kit Resolver -/

/-- C2: for a component product, `_get_phantom_bom_components` maps each kit
product id to the BoM line quantity converted into the component's base unit
of measure; a variant-level phantom assembly yields exactly that variant's
entry, and a template-level phantom assembly attributes the same multiplier to
every variant of the template. -/
theorem claim_c2 (db : DB) (product_id : Nat) (line : MrpBomLine) (bom : MrpBom)
    (h1 : db.bom_lines.filter (fun l => l.product_id == product_id) = [line])
    (h2 : db.boms.find? (fun b => b.id == line.bom_id) = some bom)
    (h3 : bom.btype = "phantom") :
    (∀ kid, bom.product_id = some kid →
      get_phantom_bom_components db product_id =
        [(kid, lineComponentQty db line)]) ∧
    (bom.product_id = none →
      ∀ k, (alookup (get_phantom_bom_components db product_id) k =
              some (lineComponentQty db line) ↔
            k ∈ variantsOf db bom.product_tmpl_id)) := by
  unfold get_phantom_bom_components
  rw [h1]
  constructor
  · intro kid hkid
    simp [phantomStep, h2, h3, hkid, dictInsert]
  · intro hnone k
    simp only [List.foldl_cons, List.foldl_nil, phantomStep, h2, h3, hnone]
    rw [if_pos (by simp)]
    rw [alookup_foldl_dictInsert_const]
    by_cases hk : k ∈ variantsOf db bom.product_tmpl_id
    · simp [hk]
    · simp [hk, alookup]

/-- C2 witness: in a concrete database where template 100 (variants 3 and 4)
has a phantom BoM consuming 2 units of component 10, the resolver gives
variant 3 the multiplier of the single BoM line. -/
theorem claim_c2_witness :
    dbKitTemplate.bom_lines.filter (fun l => l.product_id == 10) = [lineKitC2] ∧
    alookup (get_phantom_bom_components dbKitTemplate 10) 3 =
      some (lineComponentQty dbKitTemplate lineKitC2) :=
  ⟨rfl,
   ((claim_c2 dbKitTemplate 10 lineKitC2
      { id := 1, btype := "phantom", product_id := none, product_tmpl_id := 100 }
      rfl rfl rfl).2 rfl 3).mpr (by decide)⟩

/-- C10: when a component's BoM lines end with a line whose phantom assembly
resolves to kit `kid`, the resolver's entry for `kid` is that last line's
converted quantity — earlier lines for the same kit are overwritten, not
summed. -/
theorem claim_c10 (db : DB) (product_id : Nat) (ls : List MrpBomLine)
    (line : MrpBomLine) (bom : MrpBom) (kid : Nat)
    (h1 : db.bom_lines.filter (fun l => l.product_id == product_id) = ls ++ [line])
    (h2 : db.boms.find? (fun b => b.id == line.bom_id) = some bom)
    (h3 : bom.btype = "phantom") (h4 : bom.product_id = some kid) :
    alookup (get_phantom_bom_components db product_id) kid =
      some (lineComponentQty db line) := by
  unfold get_phantom_bom_components
  rw [h1, List.foldl_append]
  simp only [List.foldl_cons, List.foldl_nil, phantomStep, h2, h3, h4]
  rw [if_pos (by simp)]
  rw [alookup_dictInsert, if_pos rfl]

/-- C10 witness: component 10 appears with qty 2 in a template-level phantom
BoM of kit 1 and then with qty 5 in a variant-level phantom BoM of the same
kit; the resolver keeps 5, the last line's value. -/
theorem claim_c10_witness :
    alookup (get_phantom_bom_components dbKitTwice 10) 1 = some 5 :=
  claim_c10 dbKitTwice 10 [lineKitOld] lineKitNew
    { id := 2, btype := "phantom", product_id := some 1, product_tmpl_id := 100 }
    1 rfl rfl rfl rfl

/-! ## Claims about the Time Bucketer and the report windows -/

/-- C4: for a valid date range, `_get_months_in_range` returns a non-empty
sequence of month buckets whose (year, month) indices increase by exactly one
at each step (strictly increasing, no gaps), whose first bucket contains
`date_from`, whose last bucket contains `date_to`, and whose every bucket ends
on the last calendar day of its month. -/
theorem claim_c4 (date_from date_to : Date) (hdf : date_from.valid = true)
    (hdt : date_to.valid = true) (hle : date_from.ble date_to = true) :
    get_months_in_range date_from date_to ≠ [] ∧
    (∀ i, i + 1 < (get_months_in_range date_from date_to).length →
      bucketIndex ((get_months_in_range date_from date_to).getD (i + 1) (mkBucket 0)) =
        bucketIndex ((get_months_in_range date_from date_to).getD i (mkBucket 0)) + 1) ∧
    (((get_months_in_range date_from date_to).headD (mkBucket 0)).start.ble date_from = true ∧
      date_from.ble (((get_months_in_range date_from date_to).headD (mkBucket 0)).last) = true) ∧
    (((get_months_in_range date_from date_to).getLastD (mkBucket 0)).start.ble date_to = true ∧
      date_to.ble (((get_months_in_range date_from date_to).getLastD (mkBucket 0)).last) = true) ∧
    (∀ b ∈ get_months_in_range date_from date_to,
      b.last = ⟨b.year, b.month, daysInMonth b.year b.month⟩) := by
  have hse := monthIndex_le_monthIndex hdf hdt hle
  have hdf' := (Date.valid_iff date_from).mp hdf
  have hdt' := (Date.valid_iff date_to).mp hdt
  have hyf : monthIndex date_from / 12 = date_from.year := by
    unfold monthIndex; omega
  have hmf : monthIndex date_from % 12 + 1 = date_from.month := by
    unfold monthIndex; omega
  have hyt : monthIndex date_to / 12 = date_to.year := by
    unfold monthIndex; omega
  have hmt : monthIndex date_to % 12 + 1 = date_to.month := by
    unfold monthIndex; omega
  refine ⟨?_, ?_, ⟨?_, ?_⟩, ⟨?_, ?_⟩, ?_⟩
  · intro hnil
    have hl := months_length hse
    rw [hnil] at hl
    simp at hl
    omega
  · intro i hi
    rw [months_length hse] at hi
    rw [months_eq hse, List.getD_eq_getElem?_getD, List.getD_eq_getElem?_getD,
      List.getElem?_map, List.getElem?_map,
      List.getElem?_range (by simpa using hi),
      List.getElem?_range (by omega : i < monthIndex date_to + 1 - monthIndex date_from)]
    simp [bucketIndex_mkBucket]
    omega
  · rw [months_headD hse]
    show (monthStart (monthIndex date_from)).ble date_from = true
    rw [monthStart_monthIndex hdf, Date.ble_iff]
    right
    exact ⟨rfl, Or.inr ⟨rfl, hdf'.2.2.1⟩⟩
  · rw [months_headD hse, mkBucket_last, hyf, hmf, Date.ble_iff]
    right
    exact ⟨rfl, Or.inr ⟨rfl, hdf'.2.2.2⟩⟩
  · rw [months_getLastD hse]
    show (monthStart (monthIndex date_to)).ble date_to = true
    rw [monthStart_monthIndex hdt, Date.ble_iff]
    right
    exact ⟨rfl, Or.inr ⟨rfl, hdt'.2.2.1⟩⟩
  · rw [months_getLastD hse, mkBucket_last, hyt, hmt, Date.ble_iff]
    right
    exact ⟨rfl, Or.inr ⟨rfl, hdt'.2.2.2⟩⟩
  · intro b hb
    rw [months_eq hse] at hb
    rcases List.mem_map.mp hb with ⟨i, _, rfl⟩
    rw [mkBucket_last]
    rfl

/-- C4 witness at the concrete range 2024-01-15 .. 2024-03-20. -/
theorem claim_c4_witness :
    (⟨2024, 1, 15⟩ : Date).valid = true ∧
    (⟨2024, 3, 20⟩ : Date).valid = true ∧
    (⟨2024, 1, 15⟩ : Date).ble ⟨2024, 3, 20⟩ = true ∧
    (get_months_in_range ⟨2024, 1, 15⟩ ⟨2024, 3, 20⟩ ≠ [] ∧
     (∀ i, i + 1 < (get_months_in_range ⟨2024, 1, 15⟩ ⟨2024, 3, 20⟩).length →
       bucketIndex ((get_months_in_range ⟨2024, 1, 15⟩ ⟨2024, 3, 20⟩).getD (i + 1) (mkBucket 0)) =
         bucketIndex ((get_months_in_range ⟨2024, 1, 15⟩ ⟨2024, 3, 20⟩).getD i (mkBucket 0)) + 1) ∧
     (((get_months_in_range ⟨2024, 1, 15⟩ ⟨2024, 3, 20⟩).headD (mkBucket 0)).start.ble ⟨2024, 1, 15⟩ = true ∧
       (⟨2024, 1, 15⟩ : Date).ble (((get_months_in_range ⟨2024, 1, 15⟩ ⟨2024, 3, 20⟩).headD (mkBucket 0)).last) = true) ∧
     (((get_months_in_range ⟨2024, 1, 15⟩ ⟨2024, 3, 20⟩).getLastD (mkBucket 0)).start.ble ⟨2024, 3, 20⟩ = true ∧
       (⟨2024, 3, 20⟩ : Date).ble (((get_months_in_range ⟨2024, 1, 15⟩ ⟨2024, 3, 20⟩).getLastD (mkBucket 0)).last) = true) ∧
     (∀ b ∈ get_months_in_range ⟨2024, 1, 15⟩ ⟨2024, 3, 20⟩,
       b.last = ⟨b.year, b.month, daysInMonth b.year b.month⟩)) :=
  ⟨by decide, by decide, by decide,
   claim_c4 ⟨2024, 1, 15⟩ ⟨2024, 3, 20⟩ (by decide) (by decide) (by decide)⟩

/-- C5: across two contiguous buckets of `_get_months_in_range`, the opening
stock of the later month — `_get_stock_at_date` at its start minus one day —
equals the closing stock of the earlier month — `_get_stock_at_date` at its
end — for any ledger, product and location set. -/
theorem claim_c5 (db : DB) (product_id : Nat) (location_ids : List Nat)
    (date_from date_to : Date) (i : Nat)
    (h : i + 1 < (get_months_in_range date_from date_to).length) :
    get_stock_at_date db product_id
        ((((get_months_in_range date_from date_to).getD (i + 1) (mkBucket 0)).start).subDay)
        location_ids =
      get_stock_at_date db product_id
        (((get_months_in_range date_from date_to).getD i (mkBucket 0)).last)
        location_ids := by
  have hse : monthIndex date_from ≤ monthIndex date_to := by
    by_contra hc
    rw [months_empty hc] at h
    simp at h
  rw [months_length hse] at h
  congr 1
  rw [months_eq hse, List.getD_eq_getElem?_getD, List.getD_eq_getElem?_getD,
    List.getElem?_map, List.getElem?_map,
    List.getElem?_range (by simpa using h),
    List.getElem?_range (by omega : i < monthIndex date_to + 1 - monthIndex date_from)]
  rfl

/-- C5 witness: January and February 2024 over the empty ledger. -/
theorem claim_c5_witness :
    get_stock_at_date emptyDB 1
        ((((get_months_in_range ⟨2024, 1, 1⟩ ⟨2024, 2, 20⟩).getD 1 (mkBucket 0)).start).subDay) [] =
      get_stock_at_date emptyDB 1
        (((get_months_in_range ⟨2024, 1, 1⟩ ⟨2024, 2, 20⟩).getD 0 (mkBucket 0)).last) [] :=
  claim_c5 emptyDB 1 [] ⟨2024, 1, 1⟩ ⟨2024, 2, 20⟩ 0 (by decide)

/-- C9: the report windows are the full bucket boundaries, never truncated to
the requested range: when `date_from` is not the first day of its month, the
first bucket starts strictly before `date_from` and the window filter of the
flow queries accepts every date between that start and `date_from`; when
`date_to` is not the last day of its month, the last bucket ends strictly
after `date_to` and the window filter accepts every date between `date_to`
and that end. -/
theorem claim_c9 (date_from date_to : Date) (hdf : date_from.valid = true)
    (hdt : date_to.valid = true) (hle : date_from.ble date_to = true) :
    (2 ≤ date_from.day →
      ((((get_months_in_range date_from date_to).headD (mkBucket 0)).start.blt date_from = true) ∧
       ∀ d : Date,
         (((get_months_in_range date_from date_to).headD (mkBucket 0)).start.ble d = true) →
         d.blt date_from = true →
         inWindow (((get_months_in_range date_from date_to).headD (mkBucket 0)).start)
           (((get_months_in_range date_from date_to).headD (mkBucket 0)).last) d = true)) ∧
    (date_to.day < daysInMonth date_to.year date_to.month →
      ((date_to.blt (((get_months_in_range date_from date_to).getLastD (mkBucket 0)).last) = true) ∧
       ∀ d : Date,
         date_to.blt d = true →
         d.ble (((get_months_in_range date_from date_to).getLastD (mkBucket 0)).last) = true →
         inWindow (((get_months_in_range date_from date_to).getLastD (mkBucket 0)).start)
           (((get_months_in_range date_from date_to).getLastD (mkBucket 0)).last) d = true)) := by
  have hse := monthIndex_le_monthIndex hdf hdt hle
  have hdf' := (Date.valid_iff date_from).mp hdf
  have hdt' := (Date.valid_iff date_to).mp hdt
  have hyf : monthIndex date_from / 12 = date_from.year := by
    unfold monthIndex; omega
  have hmf : monthIndex date_from % 12 + 1 = date_from.month := by
    unfold monthIndex; omega
  have hyt : monthIndex date_to / 12 = date_to.year := by
    unfold monthIndex; omega
  have hmt : monthIndex date_to % 12 + 1 = date_to.month := by
    unfold monthIndex; omega
  have hstart1 : ((get_months_in_range date_from date_to).headD (mkBucket 0)).start =
      ⟨date_from.year, date_from.month, 1⟩ := by
    rw [months_headD hse]
    exact monthStart_monthIndex hdf
  have hlast1 : ((get_months_in_range date_from date_to).headD (mkBucket 0)).last =
      ⟨date_from.year, date_from.month, daysInMonth date_from.year date_from.month⟩ := by
    rw [months_headD hse, mkBucket_last, hyf, hmf]
  have hstart2 : ((get_months_in_range date_from date_to).getLastD (mkBucket 0)).start =
      ⟨date_to.year, date_to.month, 1⟩ := by
    rw [months_getLastD hse]
    exact monthStart_monthIndex hdt
  have hlast2 : ((get_months_in_range date_from date_to).getLastD (mkBucket 0)).last =
      ⟨date_to.year, date_to.month, daysInMonth date_to.year date_to.month⟩ := by
    rw [months_getLastD hse, mkBucket_last, hyt, hmt]
  constructor
  · intro hday
    constructor
    · rw [hstart1, Date.blt_iff]
      right
      exact ⟨rfl, Or.inr ⟨rfl, (by omega : 1 < date_from.day)⟩⟩
    · intro d h1 h2
      unfold inWindow
      rw [Bool.and_eq_true]
      refine ⟨h1, ?_⟩
      have hfl : date_from.ble
          (⟨date_from.year, date_from.month, daysInMonth date_from.year date_from.month⟩ : Date) = true := by
        rw [Date.ble_iff]
        right
        exact ⟨rfl, Or.inr ⟨rfl, hdf'.2.2.2⟩⟩
      rw [hlast1]
      exact Date.blt_ble_trans h2 hfl
  · intro hday
    constructor
    · rw [hlast2, Date.blt_iff]
      right
      exact ⟨rfl, Or.inr ⟨rfl, hday⟩⟩
    · intro d h1 h2
      unfold inWindow
      rw [Bool.and_eq_true]
      refine ⟨?_, h2⟩
      have hsd : (⟨date_to.year, date_to.month, 1⟩ : Date).ble date_to = true := by
        rw [Date.ble_iff]
        right
        exact ⟨rfl, Or.inr ⟨rfl, hdt'.2.2.1⟩⟩
      rw [hstart2]
      exact Date.ble_trans hsd (Date.blt_ble h1)

/-- C9 witness at the concrete range 2024-01-15 .. 2024-02-20 (neither a first
nor a last day of its month): the first window starts 2024-01-01 and accepts
2024-01-05, the last window ends 2024-02-29 and accepts 2024-02-25. -/
theorem claim_c9_witness :
    (⟨2024, 1, 15⟩ : Date).valid = true ∧
    (⟨2024, 2, 20⟩ : Date).valid = true ∧
    (⟨2024, 1, 15⟩ : Date).ble ⟨2024, 2, 20⟩ = true ∧
    inWindow (((get_months_in_range ⟨2024, 1, 15⟩ ⟨2024, 2, 20⟩).headD (mkBucket 0)).start)
      (((get_months_in_range ⟨2024, 1, 15⟩ ⟨2024, 2, 20⟩).headD (mkBucket 0)).last)
      ⟨2024, 1, 5⟩ = true ∧
    inWindow (((get_months_in_range ⟨2024, 1, 15⟩ ⟨2024, 2, 20⟩).getLastD (mkBucket 0)).start)
      (((get_months_in_range ⟨2024, 1, 15⟩ ⟨2024, 2, 20⟩).getLastD (mkBucket 0)).last)
      ⟨2024, 2, 25⟩ = true :=
  ⟨by decide, by decide, by decide,
   ((claim_c9 ⟨2024, 1, 15⟩ ⟨2024, 2, 20⟩ (by decide) (by decide) (by decide)).1
     (by decide)).2 ⟨2024, 1, 5⟩ (by decide) (by decide),
   ((claim_c9 ⟨2024, 1, 15⟩ ⟨2024, 2, 20⟩ (by decide) (by decide) (by decide)).2
     (by decide)).2 ⟨2024, 2, 25⟩ (by decide) (by decide)⟩

/-! ## Claim about Stock-at-date -/

/-- C1: the claim says a done movement entirely inside the internal set
contributes 0 to `_get_stock_at_date`; the code's CASE tests the destination
first and therefore counts such a movement as `+quantity`.  On a ledger with
one external receipt of 5 followed by one internal transfer of those same 5
units, the code reports 10 where the claim's signed sum gives 5. -/
theorem claim_c1 :
    get_stock_at_date dbStockBug 7 ⟨2024, 1, 31⟩ [1, 2] = 10 ∧
    stock_at_date_claim dbStockBug 7 ⟨2024, 1, 31⟩ [1, 2] = 5 ∧
    get_stock_at_date dbStockBug 7 ⟨2024, 1, 31⟩ [1, 2] ≠
      stock_at_date_claim dbStockBug 7 ⟨2024, 1, 31⟩ [1, 2] := by
  refine ⟨?_, ?_, ?_⟩ <;>
    norm_num [get_stock_at_date, stock_at_date_claim, dbStockBug, emptyDB,
      Date.ble, List.filter_cons]

/-! ## Claims about Window-moves sale attribution -/

theorem kitFold_spec (agg : Nat → Rat × Rat) (l : List (Nat × Rat))
    (init : Rat × Rat) :
    kitFold agg l init =
      (init.1 + (l.map (fun kv => (agg kv.1).1 * kv.2)).sum,
       init.2 + ((l.filter (fun kv => !decide ((agg kv.1).1 = 0))).map
         (fun kv => (agg kv.1).2 * kv.2)).sum) := by
  induction l generalizing init with
  | nil => simp [kitFold]
  | cons kv l ih =>
    have hstep : kitFold agg (kv :: l) init =
        kitFold agg l
          (if (agg kv.1).1 = 0 then init
           else (init.1 + (agg kv.1).1 * kv.2, init.2 + (agg kv.1).2 * kv.2)) := by
      unfold kitFold
      rw [List.foldl_cons]
    rw [hstep, ih]
    by_cases h : (agg kv.1).1 = 0
    · simp [h, List.filter_cons]
    · rw [if_neg h, Prod.mk.injEq]
      simp only [List.filter_cons, decide_eq_false h, Bool.not_false, if_true,
        List.map_cons, List.sum_cons]
      constructor <;> ring

/-- C3 counterexample: kit 2 contains component 1 with multiplier 2; in the
window the kit's confirmed sale lines are qty `+1` at 10 and qty `-1` at 20,
so the kit's own totals are `(0, -10)` and the claim's formula yields sale
value `-20`, but the code's zero-quantity guard drops the contribution and
reports 0. -/
theorem claim_c3_counterexample :
    (get_stock_moves_data dbKitZeroQty wJan 1 ⟨2024, 1, 1⟩ ⟨2024, 1, 31⟩ [5]).sale_value = 0 ∧
    (sale_totals_claim dbKitZeroQty 1 ⟨2024, 1, 1⟩ ⟨2024, 1, 31⟩).2 = -20 ∧
    (get_stock_moves_data dbKitZeroQty wJan 1 ⟨2024, 1, 1⟩ ⟨2024, 1, 31⟩ [5]).sale_value ≠
      (sale_totals_claim dbKitZeroQty 1 ⟨2024, 1, 1⟩ ⟨2024, 1, 31⟩).2 := by
  refine ⟨?_, ?_, ?_⟩ <;>
    norm_num [get_stock_moves_data, sale_totals_claim, get_phantom_bom_components,
      phantomStep, dictInsert, lineComponentQty, product_uom_id_of, kitFold,
      saleAgg, posAgg, purchaseAgg, qtyInAgg, qtyOutAgg, inWindow, Date.ble,
      dbKitZeroQty, emptyDB, wJan, mkWizard, List.filter_cons]

/-- C3 (amended): with the sales channel enabled, `sale_qty` is the direct
confirmed sale total plus every kit's own window quantity times the per-kit
multiplier, and `sale_value` is the direct value total plus the value
contributions of exactly those kits whose window quantity total is nonzero
(a kit with zero quantity total contributes no value either, because of the
`if result and result[0]` guard). -/
theorem claim_c3 (db : DB) (w : Wizard) (product_id : Nat)
    (date_start date_end : Date) (location_ids : List Nat)
    (h : w.include_sales = true) :
    (get_stock_moves_data db w product_id date_start date_end location_ids).sale_qty
      = (saleAgg db product_id date_start date_end).1 +
        ((get_phantom_bom_components db product_id).map
          (fun kv => (saleAgg db kv.1 date_start date_end).1 * kv.2)).sum ∧
    (get_stock_moves_data db w product_id date_start date_end location_ids).sale_value
      = (saleAgg db product_id date_start date_end).2 +
        (((get_phantom_bom_components db product_id).filter
          (fun kv => !decide ((saleAgg db kv.1 date_start date_end).1 = 0))).map
          (fun kv => (saleAgg db kv.1 date_start date_end).2 * kv.2)).sum := by
  constructor <;> simp [get_stock_moves_data, h, kitFold_spec]

/-- C3 witness: kit 2 contains 2 units of component 1 per kit and one
confirmed order sells 3 kits in the window, so the component's `sale_qty` is
`0 + 3 * 2 = 6`. -/
theorem claim_c3_witness :
    wJan.include_sales = true ∧
    ((get_stock_moves_data dbKitSale wJan 1 ⟨2024, 1, 1⟩ ⟨2024, 1, 31⟩ []).sale_qty
      = (saleAgg dbKitSale 1 ⟨2024, 1, 1⟩ ⟨2024, 1, 31⟩).1 +
        ((get_phantom_bom_components dbKitSale 1).map
          (fun kv => (saleAgg dbKitSale kv.1 ⟨2024, 1, 1⟩ ⟨2024, 1, 31⟩).1 * kv.2)).sum ∧
     (get_stock_moves_data dbKitSale wJan 1 ⟨2024, 1, 1⟩ ⟨2024, 1, 31⟩ []).sale_value
      = (saleAgg dbKitSale 1 ⟨2024, 1, 1⟩ ⟨2024, 1, 31⟩).2 +
        (((get_phantom_bom_components dbKitSale 1).filter
          (fun kv => !decide ((saleAgg dbKitSale kv.1 ⟨2024, 1, 1⟩ ⟨2024, 1, 31⟩).1 = 0))).map
          (fun kv => (saleAgg dbKitSale kv.1 ⟨2024, 1, 1⟩ ⟨2024, 1, 31⟩).2 * kv.2)).sum) ∧
    (get_stock_moves_data dbKitSale wJan 1 ⟨2024, 1, 1⟩ ⟨2024, 1, 31⟩ []).sale_qty = 6 :=
  ⟨rfl,
   claim_c3 dbKitSale wJan 1 ⟨2024, 1, 1⟩ ⟨2024, 1, 31⟩ [] rfl,
   by
    norm_num [get_stock_moves_data, get_phantom_bom_components, phantomStep,
      dictInsert, lineComponentQty, product_uom_id_of, kitFold, saleAgg, posAgg,
      purchaseAgg, qtyInAgg, qtyOutAgg, inWindow, Date.ble, dbKitSale, emptyDB,
      wJan, mkWizard, List.filter_cons]⟩

/-! ## Claim about the yearly totals -/

theorem accumulate_yearly_totals_eq (months : List MonthBucket)
    (move_data : MonthBucket → StockMovesData) (y : Nat) :
    accumulate_yearly_totals months move_data y =
      ((months.filter (fun m => m.year == y)).map move_data).foldl
        YearTotals.addMove YearTotals.zero := by
  suffices h : ∀ init : Nat → YearTotals,
      (months.foldl
        (fun tot m => fun yy =>
          if yy = m.year then (tot yy).addMove (move_data m) else tot yy)
        init) y =
      ((months.filter (fun m => m.year == y)).map move_data).foldl
        YearTotals.addMove (init y) by
    exact h (fun _ => YearTotals.zero)
  induction months with
  | nil => intro init; rfl
  | cons m months ih =>
    intro init
    rw [List.foldl_cons, ih, List.filter_cons]
    by_cases hy : m.year = y
    · simp [hy]
    · simp [hy, Ne.symm hy]

theorem foldl_addMove_fields (l : List StockMovesData) (t : YearTotals) :
    (l.foldl YearTotals.addMove t).total_purchase_qty
        = t.total_purchase_qty + (l.map (fun d => d.purchase_qty)).sum ∧
    (l.foldl YearTotals.addMove t).total_purchase_value
        = t.total_purchase_value + (l.map (fun d => d.purchase_value)).sum ∧
    (l.foldl YearTotals.addMove t).total_sale_qty
        = t.total_sale_qty + (l.map (fun d => d.sale_qty)).sum ∧
    (l.foldl YearTotals.addMove t).total_sale_value
        = t.total_sale_value + (l.map (fun d => d.sale_value)).sum ∧
    (l.foldl YearTotals.addMove t).total_pos_qty
        = t.total_pos_qty + (l.map (fun d => d.pos_qty)).sum ∧
    (l.foldl YearTotals.addMove t).total_pos_value
        = t.total_pos_value + (l.map (fun d => d.pos_value)).sum := by
  induction l generalizing t with
  | nil => simp
  | cons d l ih =>
    obtain ⟨e1, e2, e3, e4, e5, e6⟩ := ih (t.addMove d)
    rw [List.foldl_cons]
    refine ⟨?_, ?_, ?_, ?_, ?_, ?_⟩
    · rw [e1]; simp only [YearTotals.addMove, List.map_cons, List.sum_cons]; ring
    · rw [e2]; simp only [YearTotals.addMove, List.map_cons, List.sum_cons]; ring
    · rw [e3]; simp only [YearTotals.addMove, List.map_cons, List.sum_cons]; ring
    · rw [e4]; simp only [YearTotals.addMove, List.map_cons, List.sum_cons]; ring
    · rw [e5]; simp only [YearTotals.addMove, List.map_cons, List.sum_cons]; ring
    · rw [e6]; simp only [YearTotals.addMove, List.map_cons, List.sum_cons]; ring

/-- C6: for every product, location set and year, each of the six yearly
totals accumulated by `_write_excel_content` equals exactly the sum of that
product's corresponding monthly figure over the months of that year. -/
theorem claim_c6 (db : DB) (w : Wizard) (product_id : Nat)
    (location_ids : List Nat) (months : List MonthBucket) (y : Nat) :
    (accumulate_yearly_totals months
        (fun m => get_stock_moves_data db w product_id m.start m.last location_ids)
        y).total_purchase_qty
      = ((months.filter (fun m => m.year == y)).map
          (fun m => (get_stock_moves_data db w product_id m.start m.last location_ids).purchase_qty)).sum ∧
    (accumulate_yearly_totals months
        (fun m => get_stock_moves_data db w product_id m.start m.last location_ids)
        y).total_purchase_value
      = ((months.filter (fun m => m.year == y)).map
          (fun m => (get_stock_moves_data db w product_id m.start m.last location_ids).purchase_value)).sum ∧
    (accumulate_yearly_totals months
        (fun m => get_stock_moves_data db w product_id m.start m.last location_ids)
        y).total_sale_qty
      = ((months.filter (fun m => m.year == y)).map
          (fun m => (get_stock_moves_data db w product_id m.start m.last location_ids).sale_qty)).sum ∧
    (accumulate_yearly_totals months
        (fun m => get_stock_moves_data db w product_id m.start m.last location_ids)
        y).total_sale_value
      = ((months.filter (fun m => m.year == y)).map
          (fun m => (get_stock_moves_data db w product_id m.start m.last location_ids).sale_value)).sum ∧
    (accumulate_yearly_totals months
        (fun m => get_stock_moves_data db w product_id m.start m.last location_ids)
        y).total_pos_qty
      = ((months.filter (fun m => m.year == y)).map
          (fun m => (get_stock_moves_data db w product_id m.start m.last location_ids).pos_qty)).sum ∧
    (accumulate_yearly_totals months
        (fun m => get_stock_moves_data db w product_id m.start m.last location_ids)
        y).total_pos_value
      = ((months.filter (fun m => m.year == y)).map
          (fun m => (get_stock_moves_data db w product_id m.start m.last location_ids).pos_value)).sum := by
  rw [accumulate_yearly_totals_eq]
  obtain ⟨e1, e2, e3, e4, e5, e6⟩ :=
    foldl_addMove_fields
      ((months.filter (fun m => m.year == y)).map
        (fun m => get_stock_moves_data db w product_id m.start m.last location_ids))
      YearTotals.zero
  refine ⟨?_, ?_, ?_, ?_, ?_, ?_⟩
  · rw [e1]; simp [YearTotals.zero, List.map_map, Function.comp_def]
  · rw [e2]; simp [YearTotals.zero, List.map_map, Function.comp_def]
  · rw [e3]; simp [YearTotals.zero, List.map_map, Function.comp_def]
  · rw [e4]; simp [YearTotals.zero, List.map_map, Function.comp_def]
  · rw [e5]; simp [YearTotals.zero, List.map_map, Function.comp_def]
  · rw [e6]; simp [YearTotals.zero, List.map_map, Function.comp_def]

/-! ## Claim about the Product Selector -/

/-- C7: `_get_products` returns only stockable variants matching the optional
id-set and category-subtree filters, in name order, and no returned variant's
template has a phantom-type BoM — kit products never appear. -/
theorem claim_c7 (db : DB) (w : Wizard) :
    (∀ p ∈ get_products db w,
      p.ptype = "consu" ∧
      (w.product_ids ≠ [] → p.id ∈ w.product_ids) ∧
      (w.category_ids ≠ [] → ∃ c ∈ p.categ_path, c ∈ w.category_ids) ∧
      (∀ b ∈ db.boms, b.btype = "phantom" → b.product_tmpl_id ≠ p.product_tmpl_id)) ∧
    List.Pairwise (fun a b => nameLe a b = true) (get_products db w) := by
  have hsorted :
      List.Pairwise (fun a b => nameLe a b = true)
        ((db.products.filter (searchDomain w)).mergeSort nameLe) := by
    apply List.sorted_mergeSort
    · intro a b c hab hbc
      simp only [nameLe, decide_eq_true_eq] at hab hbc ⊢
      exact le_trans hab hbc
    · intro a b
      simp only [nameLe]
      rcases le_total a.name b.name with h | h
      · simp [h]
      · simp [h]
  have hsub : ∀ p ∈ get_products db w,
      p ∈ (db.products.filter (searchDomain w)).mergeSort nameLe := by
    intro p hp
    unfold get_products at hp
    by_cases h1 : ((db.products.filter (searchDomain w)).mergeSort nameLe).isEmpty
    · rw [if_pos h1] at hp
      exact hp
    · rw [if_neg h1] at hp
      by_cases h2 : ((db.boms.filter (fun b => b.btype == "phantom" &&
          ((db.products.filter (searchDomain w)).mergeSort nameLe).any
            (fun q => q.product_tmpl_id == b.product_tmpl_id))).map
          (fun b => b.product_tmpl_id)).isEmpty
      · rw [if_pos h2] at hp
        exact hp
      · rw [if_neg h2] at hp
        exact (List.mem_filter.mp hp).1
  constructor
  · intro p hp
    have hmem := hsub p hp
    have hdom : searchDomain w p = true :=
      (List.mem_filter.mp (List.mem_mergeSort.mp hmem)).2
    simp only [searchDomain, Bool.and_eq_true, Bool.or_eq_true, beq_iff_eq,
      List.isEmpty_iff, List.any_eq_true, List.elem_iff,
      decide_eq_true_eq] at hdom
    refine ⟨hdom.1.1, ?_, ?_, ?_⟩
    · intro hne
      rcases hdom.1.2 with h | h
      · exact absurd h hne
      · exact h
    · intro hne
      rcases hdom.2 with h | h
      · exact absurd h hne
      · rcases h with ⟨c, hc1, hc2⟩
        exact ⟨c, hc1, hc2⟩
    · intro b hb hph heq
      unfold get_products at hp
      by_cases h1 : ((db.products.filter (searchDomain w)).mergeSort nameLe).isEmpty
      · rw [List.isEmpty_iff] at h1
        rw [h1] at hmem
        exact absurd hmem (List.not_mem_nil p)
      · rw [if_neg h1] at hp
        have hbin : b.product_tmpl_id ∈
            (db.boms.filter (fun bb => bb.btype == "phantom" &&
              ((db.products.filter (searchDomain w)).mergeSort nameLe).any
                (fun q => q.product_tmpl_id == bb.product_tmpl_id))).map
              (fun bb => bb.product_tmpl_id) := by
          apply List.mem_map.mpr
          refine ⟨b, List.mem_filter.mpr ⟨hb, ?_⟩, rfl⟩
          rw [Bool.and_eq_true]
          refine ⟨by simp [hph], ?_⟩
          apply List.any_eq_true.mpr
          exact ⟨p, hmem, by simp [heq]⟩
        by_cases h2 : ((db.boms.filter (fun bb => bb.btype == "phantom" &&
            ((db.products.filter (searchDomain w)).mergeSort nameLe).any
              (fun q => q.product_tmpl_id == bb.product_tmpl_id))).map
            (fun bb => bb.product_tmpl_id)).isEmpty
        · rw [List.isEmpty_iff] at h2
          rw [h2] at hbin
          exact absurd hbin (List.not_mem_nil _)
        · rw [if_neg h2] at hp
          have hkeep := (List.mem_filter.mp hp).2
          simp only [Bool.not_eq_true'] at hkeep
          rw [heq] at hbin
          have hc : (List.map (fun bb => bb.product_tmpl_id)
              (List.filter (fun bb => bb.btype == "phantom" &&
                ((List.filter (searchDomain w) db.products).mergeSort nameLe).any
                  (fun q => q.product_tmpl_id == bb.product_tmpl_id))
                db.boms)).contains p.product_tmpl_id = true :=
            List.elem_iff.mpr hbin
          rw [hc] at hkeep
          simp at hkeep
  · unfold get_products
    by_cases h1 : ((db.products.filter (searchDomain w)).mergeSort nameLe).isEmpty
    · rw [if_pos h1]
      exact hsorted
    · rw [if_neg h1]
      by_cases h2 : ((db.boms.filter (fun b => b.btype == "phantom" &&
          ((db.products.filter (searchDomain w)).mergeSort nameLe).any
            (fun q => q.product_tmpl_id == b.product_tmpl_id))).map
          (fun b => b.product_tmpl_id)).isEmpty
      · rw [if_pos h2]
        exact hsorted
      · rw [if_neg h2]
        exact hsorted.filter _

/-- C7 witness: the single stockable product of the fixture is returned and
satisfies all the selector guarantees. -/
theorem claim_c7_witness :
    pOne.ptype = "consu" ∧
    (wJan.product_ids ≠ [] → pOne.id ∈ wJan.product_ids) ∧
    (wJan.category_ids ≠ [] → ∃ c ∈ pOne.categ_path, c ∈ wJan.category_ids) ∧
    (∀ b ∈ dbOneProduct.boms, b.btype = "phantom" →
      b.product_tmpl_id ≠ pOne.product_tmpl_id) :=
  (claim_c7 dbOneProduct wJan).1 pOne
    (by
      unfold get_products
      simp [dbOneProduct, emptyDB, wJan, mkWizard, searchDomain, pOne,
        List.mergeSort])

/-! ## Claim about report-generation validation -/

/-- C8: report generation raises a user-facing error and produces no file
exactly when the start date is after the end date, the product selection is
empty, the month range is empty, the internal location set is empty, or the
xlsxwriter library is missing; and a range with `date_from = date_to` passes
the date check. -/
theorem claim_c8 (xlsxwriter_available : Bool) (db : DB) (w : Wizard) :
    ((∃ e, generate_report xlsxwriter_available db w = Except.error e) ↔
      (w.date_to.blt w.date_from = true ∨
       get_products db w = [] ∨
       get_months_in_range w.date_from w.date_to = [] ∨
       get_location_ids db w = [] ∨
       xlsxwriter_available = false)) ∧
    (w.date_from = w.date_to → check_dates w = Except.ok ()) := by
  constructor
  · unfold generate_report check_dates action_generate_report
    by_cases h1 : w.date_to.blt w.date_from = true
    · rw [if_pos h1]
      constructor
      · intro
        exact Or.inl h1
      · intro
        exact ⟨"Start Date must be before End Date.", rfl⟩
    · rw [Bool.not_eq_true] at h1
      simp only [h1, Bool.false_eq_true, if_false]
      show (∃ e, (Except.ok () >>= fun _ => _) = Except.error e) ↔ _
      rw [show ((Except.ok () : Except String Unit) >>= fun _ =>
          (if !xlsxwriter_available then
            Except.error "xlsxwriter library is required. Please install it using: pip install xlsxwriter"
          else
            if (get_products db w).isEmpty then
              Except.error "No products found with the given criteria."
            else
              if (get_months_in_range w.date_from w.date_to).isEmpty then
                Except.error "No months found in the selected date range."
              else
                if (get_location_ids db w).isEmpty then
                  Except.error "No stock locations found."
                else
                  Except.ok (write_excel_content db w (get_products db w)
                    (get_months_in_range w.date_from w.date_to) (get_location_ids db w)) :
            Except String (List (List Rat)))) =
          (if !xlsxwriter_available then
            Except.error "xlsxwriter library is required. Please install it using: pip install xlsxwriter"
          else
            if (get_products db w).isEmpty then
              Except.error "No products found with the given criteria."
            else
              if (get_months_in_range w.date_from w.date_to).isEmpty then
                Except.error "No months found in the selected date range."
              else
                if (get_location_ids db w).isEmpty then
                  Except.error "No stock locations found."
                else
                  Except.ok (write_excel_content db w (get_products db w)
                    (get_months_in_range w.date_from w.date_to) (get_location_ids db w)))
        from rfl]
      cases hx : xlsxwriter_available
      · simp
      · simp only [Bool.not_true, Bool.false_eq_true, if_false]
        by_cases h2 : (get_products db w).isEmpty
        · rw [if_pos h2]
          rw [List.isEmpty_iff] at h2
          simp [h2]
        · rw [if_neg h2]
          rw [List.isEmpty_iff] at h2
          by_cases h3 : (get_months_in_range w.date_from w.date_to).isEmpty
          · rw [if_pos h3]
            rw [List.isEmpty_iff] at h3
            simp [h2, h3]
          · rw [if_neg h3]
            rw [List.isEmpty_iff] at h3
            by_cases h4 : (get_location_ids db w).isEmpty
            · rw [if_pos h4]
              rw [List.isEmpty_iff] at h4
              simp [h2, h3, h4]
            · rw [if_neg h4]
              rw [List.isEmpty_iff] at h4
              simp [h1, h2, h3, h4]
  · intro hfe
    unfold check_dates
    have hlt : w.date_to.blt w.date_from = false := by
      have : ¬ (w.date_to.blt w.date_from = true) := by
        rw [hfe, Date.blt_iff]
        omega
      cases hx : w.date_to.blt w.date_from
      · rfl
      · exact absurd hx this
    rw [hlt]
    rfl

/-- C8 witness: with equal start and end dates the date check passes, and with
the xlsxwriter library missing the generation fails with an error. -/
theorem claim_c8_witness :
    check_dates (mkWizard ⟨2024, 1, 1⟩ ⟨2024, 1, 1⟩) = Except.ok () ∧
    (∃ e, generate_report false dbOneProduct (mkWizard ⟨2024, 1, 1⟩ ⟨2024, 1, 1⟩) =
      Except.error e) :=
  ⟨(claim_c8 false dbOneProduct (mkWizard ⟨2024, 1, 1⟩ ⟨2024, 1, 1⟩)).2 rfl,
   (claim_c8 false dbOneProduct (mkWizard ⟨2024, 1, 1⟩ ⟨2024, 1, 1⟩)).1.mpr
     (Or.inr (Or.inr (Or.inr (Or.inr rfl))))⟩

end StockReport
